import Mathlib

/-
Verification development for the HerePy `RoutingApi` module
(`src/herepy/routing_api.py`).

The Python code is shallowly embedded below.  JSON payloads are modelled as
association lists of string keys to a small JSON value type; Python exceptions
are modelled with `Except` or explicit outcome constructors; the HTTP layer is
modelled by passing the scripted responses of the remote endpoints as inputs
and recording the calls the code would issue in explicit traces.
-/

set_option autoImplicit false
set_option maxRecDepth 4000

namespace HerePy

/-! ## JSON values (decoded `json.loads` payloads) -/

/-- A decoded JSON value, restricted to the shapes the routing module touches. -/
inductive JVal where
  | str (s : String)
  | num (n : Int)
  | bool (b : Bool)
  | null
  deriving DecidableEq, Repr

/-- A decoded JSON object: association list from keys to values (keys unique). -/
abbrev JObj := List (String × JVal)

/-- `json_data.get(key)` / `json_data[key]` lookup (first matching key). -/
def jget (j : JObj) (key : String) : Option JVal :=
  match j with
  | [] => none
  | (k, v) :: rest => if k = key then some v else jget rest key

/-- Python truthiness of a JSON value (`if poll_data["error"]:`). -/
def truthy : JVal → Bool
  | JVal.str s => s ≠ ""
  | JVal.num n => n ≠ 0
  | JVal.bool b => b
  | JVal.null => false

/-! ## Python string primitives used by the summarizers -/

/-- Fuel-driven worker for `pySplit`; `acc` is the current chunk, reversed.
The fuel is an upper bound on the number of characters still to scan, so the
`0` case is unreachable for the fuel supplied by `pySplit`. -/
def pySplitGo (sep : List Char) : Nat → List Char → List Char → List (List Char)
  | 0, s, acc => [acc.reverse ++ s]
  | _ + 1, [], acc => [acc.reverse]
  | fuel + 1, c :: rest, acc =>
    if sep.isPrefixOf (c :: rest) then
      acc.reverse :: pySplitGo sep fuel ((c :: rest).drop sep.length) []
    else
      pySplitGo sep fuel rest (c :: acc)

/-- Python `s.split(sep)` for a non-empty separator: split on every
non-overlapping leftmost occurrence of `sep`. -/
def pySplit (sep s : List Char) : List (List Char) :=
  pySplitGo sep (s.length + 1) s []

/-- Whether `sep` occurs as a contiguous subsequence of `s`
(so `pySplit sep s` has at least two chunks exactly when this is true). -/
def containsSub (sep : List Char) : List Char → Bool
  | [] => sep.isEmpty
  | c :: rest => sep.isPrefixOf (c :: rest) || containsSub sep rest

/-- Python `x.replace("(", "").replace(")", "")`: drop all parentheses. -/
def removeParens (cs : List Char) : List Char :=
  cs.filter (fun c => !(c = '(' || c = ')'))

/-- Python `sep.join(l)`. -/
def joinSep (sep : String) : List String → String
  | [] => ""
  | [x] => x
  | x :: xs => x ++ sep ++ joinSep sep xs

/-- Python `s[:-1]` (empty string stays empty). -/
def dropLastChar (s : String) : String :=
  ⟨s.data.dropLast⟩

/-! ## Route summarizer (`routing_api.py` lines 649-713) -/

/-- The opening markup delimiter for the next-street span. -/
def nextStreetTag : String := "<span class=\"next-street\">"

/-- The opening markup delimiter for the road-number span. -/
def numberTag : String := "<span class=\"number\">"

/-- The closing markup delimiter for both spans. -/
def spanCloseTag : String := "</span>"

/-- `instruction.split(tag)[1].split("</span>")[0]` with parentheses removed.
Returns `none` exactly when the indexing `[1]` would raise `IndexError`
(`tag` absent), which the Python code catches with `except IndexError: pass`;
`[0]` never fails since `split` always returns at least one chunk. -/
def extractSpan (tag : String) (instruction : String) : Option String :=
  match pySplit tag.data instruction.data with
  | _ :: second :: _ =>
    some ⟨removeParens ((pySplit spanCloseTag.data second).headD [])⟩
  | _ => none

/-- `if not road_names or road_names[-1] != road_name: road_names.append(...)`:
append unless equal to the last already-emitted entry. -/
def addIfNotRepeat (road_names : List String) (road_name : String) : List String :=
  if road_names.getLast? = some road_name then road_names
  else road_names ++ [road_name]

/-- One iteration of the `_get_route_from_non_vehicle_maneuver` loop body
(lines 655-667): extract the next-street span, skip the step on failure. -/
def nonVehicleStep (road_names : List String) (instruction : String) : List String :=
  match extractSpan nextStreetTag instruction with
  | none => road_names
  | some road_name => addIfNotRepeat road_names road_name

/-- The `road_names` list built by `_get_route_from_non_vehicle_maneuver`. -/
def nonVehicleRoadNames (maneuver : List String) : List String :=
  maneuver.foldl nonVehicleStep []

/-- `RoutingApi._get_route_from_non_vehicle_maneuver` (lines 649-669); each
maneuver step is represented by its `instruction` string. -/
def get_route_from_non_vehicle_maneuver (maneuver : List String) : String :=
  joinSep "; " (nonVehicleRoadNames maneuver)

/-- The entry `_get_route_from_vehicle_maneuver` produces for one step:
number span, optionally extended by the next-street span; `none` when the
number span is not extractable (the outer `except IndexError` skips the step).
The street span is only attempted after the number span succeeded. -/
def vehicleStepEntry (instruction : String) : Option String :=
  match extractSpan numberTag instruction with
  | none => none
  | some road_number =>
    match extractSpan nextStreetTag instruction with
    | none => some road_number
    | some street_name => some (road_number ++ " - " ++ street_name)

/-- One iteration of the `_get_route_from_vehicle_maneuver` loop body
(lines 688-710). -/
def vehicleStep (road_names : List String) (instruction : String) : List String :=
  match extractSpan numberTag instruction with
  | none => road_names
  | some road_number =>
    match extractSpan nextStreetTag instruction with
    | none => addIfNotRepeat road_names road_number
    | some street_name => addIfNotRepeat road_names (road_number ++ " - " ++ street_name)

/-- The `road_names` list built by `_get_route_from_vehicle_maneuver`. -/
def vehicleRoadNames (maneuver : List String) : List String :=
  maneuver.foldl vehicleStep []

/-- `RoutingApi._get_route_from_vehicle_maneuver` (lines 682-713). -/
def get_route_from_vehicle_maneuver (maneuver : List String) : String :=
  joinSep "; " (vehicleRoadNames maneuver)

/-- One public-transport line segment (`lineName`, `destination` fields). -/
structure PublicTransportLine where
  lineName : String
  destination : String
  deriving DecidableEq, Repr

/-- `RoutingApi._get_route_from_public_transport_line` (lines 671-680). -/
def get_route_from_public_transport_line (segments : List PublicTransportLine) : String :=
  joinSep "; " (segments.map (fun li => li.lineName ++ " - " ++ li.destination))

/-! ## Error classifier (`error_from_routing_service_error`, lines 774-796) -/

/-- An uncaught Python exception escaping the classifier. -/
inductive PyErr where
  | keyError
  deriving DecidableEq, Repr

/-- The closed set of routing error kinds.  `generic` corresponds to
`HEREError("Error occured on " + <caller frame name>)`: it carries no
payload-derived detail. -/
inductive RoutingError where
  | invalidCredentials (descr : JVal)
  | invalidInputData (details : JVal)
  | waypointNotFound (details : JVal)
  | noRouteFound (details : JVal)
  | linkIdNotFound (details : JVal)
  | routeNotReconstructed (details : JVal)
  | generic
  deriving DecidableEq, Repr

/-- `"error" in json_data and json_data["error"] == "Unauthorized"`. -/
def errorIsUnauthorized (j : JObj) : Bool :=
  match jget j "error" with
  | some e => e = JVal.str "Unauthorized"
  | none => false

/-- The `subtype` part of the classifier (lines 781-796): the `details` field
is read unconditionally as soon as a `subtype` key is present, so a payload
with `subtype` but no `details` raises `KeyError`. -/
def subtypeDispatch (j : JObj) : Except PyErr RoutingError :=
  match jget j "subtype" with
  | none => Except.ok RoutingError.generic
  | some subtype =>
    match jget j "details" with
    | none => Except.error PyErr.keyError
    | some details =>
      if subtype = JVal.str "InvalidInputData" then
        Except.ok (RoutingError.invalidInputData details)
      else if subtype = JVal.str "WaypointNotFound" then
        Except.ok (RoutingError.waypointNotFound details)
      else if subtype = JVal.str "NoRouteFound" then
        Except.ok (RoutingError.noRouteFound details)
      else if subtype = JVal.str "LinkIdNotFound" then
        Except.ok (RoutingError.linkIdNotFound details)
      else if subtype = JVal.str "RouteNotReconstructed" then
        Except.ok (RoutingError.routeNotReconstructed details)
      else Except.ok RoutingError.generic

/-- `error_from_routing_service_error` (lines 774-796).  The `Unauthorized`
check precedes the `subtype` inspection; its `error_description` field is read
unconditionally once the check succeeds, so its absence raises `KeyError`. -/
def error_from_routing_service_error (j : JObj) : Except PyErr RoutingError :=
  if errorIsUnauthorized j then
    match jget j "error_description" with
    | some d => Except.ok (RoutingError.invalidCredentials d)
    | none => Except.error PyErr.keyError
  else subtypeDispatch j

/-! ## Asynchronous matrix job orchestrator
(`__is_correct_response` lines 494-505, `async_matrix` lines 507-628) -/

/-- One HTTP response observed while polling the status URL. -/
structure PollResponse where
  statusCode : Nat
  body : JObj
  deriving DecidableEq, Repr

/-- Result of one `__is_correct_response` call, as consumed by
`polling.poll`: a truthy return stops polling and hands the response back, a
falsy return (`False`/`None`, or the falsy empty dict on 303) keeps polling,
a raised exception propagates out of the poll loop. -/
inductive CheckResult where
  | success (body : JObj)
  | keepPolling
  | raisedHere (msg : String)
  | pyError
  deriving DecidableEq, Repr

/-- `RoutingApi.__is_correct_response` (lines 494-505).  Status 303 returns
the decoded body (truthy unless the dict is empty); status 200 prints the
`matrixId`/`status` fields and returns `False` (`KeyError` if absent);
401/403 and 404/500 raise an `HEREError` built from body fields (`KeyError`
on a missing field, modelled by `pyError` as is a non-string field fed to
string concatenation); any other status falls through and returns `None`. -/
def is_correct_response (r : PollResponse) : CheckResult :=
  if r.statusCode = 303 then
    if r.body = [] then CheckResult.keepPolling else CheckResult.success r.body
  else if r.statusCode = 200 then
    match jget r.body "matrixId", jget r.body "status" with
    | some _, some _ => CheckResult.keepPolling
    | _, _ => CheckResult.pyError
  else if r.statusCode = 401 ∨ r.statusCode = 403 then
    match jget r.body "error", jget r.body "error_description" with
    | some (JVal.str e), some (JVal.str d) =>
      CheckResult.raisedHere
        ("Error occured on __is_correct_response: " ++ e ++ ", description: " ++ d)
    | _, _ => CheckResult.pyError
  else if r.statusCode = 404 ∨ r.statusCode = 500 then
    match jget r.body "title", jget r.body "status" with
    | some (JVal.str t), some (JVal.str s) =>
      CheckResult.raisedHere
        ("Error occured on __is_correct_response: " ++ t ++ ", status: " ++ s)
    | _, _ => CheckResult.pyError
  else CheckResult.keepPolling

/-- Outcome of the `polling.poll(..., poll_forever=True)` loop run against a
scripted list of successive poll responses.  The second component counts the
polls (HTTP GETs of the status URL) actually issued.  `outOfResponses` marks
runs that exhaust the script while still polling (the real loop would block
and poll forever). -/
inductive PollOutcome where
  | finished (r : PollResponse) (polls : Nat)
  | raisedHere (msg : String) (polls : Nat)
  | pyError (polls : Nat)
  | outOfResponses (polls : Nat)
  deriving DecidableEq, Repr

/-- The poll loop of `async_matrix` (lines 609-614): repeatedly GET the
status URL and feed the response to `__is_correct_response` until it returns
a truthy value or raises. -/
def pollLoop : List PollResponse → Nat → PollOutcome
  | [], n => PollOutcome.outOfResponses n
  | r :: rest, n =>
    match is_correct_response r with
    | CheckResult.success _ => PollOutcome.finished r (n + 1)
    | CheckResult.keepPolling => pollLoop rest (n + 1)
    | CheckResult.raisedHere msg => PollOutcome.raisedHere msg (n + 1)
    | CheckResult.pyError => PollOutcome.pyError (n + 1)

/-- Counts of the externally visible actions of one `async_matrix` run:
job submissions (POSTs of the request body), polls of the status URL, and
invocations of the `__download_file` helper.  The helper is invoked as
`self.__download_file()` without its `url`/`filename` arguments, so the call
raises `TypeError` before issuing any HTTP request; `downloadCalls` counts
reaching that invocation. -/
structure AsyncTrace where
  submissions : Nat
  polls : Nat
  downloadCalls : Nat
  deriving DecidableEq, Repr

/-- Outcome of `async_matrix`.  `genericHereError` is
`HEREError("Error occured on " + <caller frame name>)`, raised both when the
submission is rejected and by the bare `except:` wrapping all post-poll
processing (which also swallows the specific `HEREError(poll_data["error"])`
and the `TypeError` from the argument-less `__download_file()` call).
`pyException` is an uncaught Python exception; `returnedNone` is falling off
the end of the function. -/
inductive AsyncOutcome where
  | genericHereError
  | raisedHere (msg : String)
  | pyException
  | returnedNone
  | stillPolling
  deriving DecidableEq, Repr

/-- `RoutingApi.async_matrix` from the submission response onward
(lines 603-628), run against a scripted submission response
(`submitStatus`, `submitBody`) and scripted poll responses.  Submission is
accepted only on status 202 (`requests.codes.ACCEPTED`); the accepted body
must supply `matrixId`/`status` (printed) and a string `statusUrl` (used to
build the poll URL), a failure there being an uncaught exception.  After the
poll loop returns a response, the body is re-decoded and processed inside
`try: ... except: raise HEREError(...)`. -/
def async_matrix_run (submitStatus : Nat) (submitBody : JObj)
    (pollResponses : List PollResponse) : AsyncOutcome × AsyncTrace :=
  if submitStatus = 202 then
    match jget submitBody "matrixId", jget submitBody "status", jget submitBody "statusUrl" with
    | some _, some _, some (JVal.str _) =>
      (match pollLoop pollResponses 0 with
       | PollOutcome.outOfResponses n => (AsyncOutcome.stillPolling, ⟨1, n, 0⟩)
       | PollOutcome.raisedHere m n => (AsyncOutcome.raisedHere m, ⟨1, n, 0⟩)
       | PollOutcome.pyError n => (AsyncOutcome.pyException, ⟨1, n, 0⟩)
       | PollOutcome.finished r n =>
         match jget r.body "matrixId", jget r.body "status" with
         | some _, some st =>
           if st = JVal.str "completed" then
             match jget r.body "resultUrl" with
             | some (JVal.str _) => (AsyncOutcome.genericHereError, ⟨1, n, 1⟩)
             | some _ => (AsyncOutcome.genericHereError, ⟨1, n, 0⟩)
             | none => (AsyncOutcome.genericHereError, ⟨1, n, 0⟩)
           else
             match jget r.body "error" with
             | some e =>
               if truthy e then (AsyncOutcome.genericHereError, ⟨1, n, 0⟩)
               else (AsyncOutcome.returnedNone, ⟨1, n, 0⟩)
             | none => (AsyncOutcome.genericHereError, ⟨1, n, 0⟩)
         | _, _ => (AsyncOutcome.genericHereError, ⟨1, n, 0⟩))
    | _, _, _ => (AsyncOutcome.pyException, ⟨1, 0, 0⟩)
  else (AsyncOutcome.genericHereError, ⟨1, 0, 0⟩)

/-! ## Route request phase (`RoutingApi._route`, lines 58-77) -/

/-- A waypoint argument: coordinate pair or place name.  Coordinate values
are carried opaquely (the code never computes on them), modelled as `Int`. -/
inductive Waypoint where
  | coords (lat lng : Int)
  | name (locationName : String)
  deriving DecidableEq, Repr

/-- `RoutingApi.__list_to_waypoint` (lines 54-56). -/
def listToWaypoint (p : Int × Int) : String :=
  "geo!" ++ toString p.1 ++ "," ++ toString p.2

/-- `RoutingApi.__prepare_mode_values` (lines 46-52): append `";"` to each
mode token and drop the final character.  Modes are represented by their
`__str__` values. -/
def prepareModeValues (modes : List String) : String :=
  dropLastChar (String.join (modes.map (fun m => m ++ ";")))

/-- Network calls recorded during the `_route` request phase: the geocoder
lookups issued for place-name waypoints (in order) and the number of GETs of
the route-calculation provider endpoint. -/
structure RouteTrace where
  geocodeCalls : List String
  providerCalls : Nat
  deriving DecidableEq, Repr

/-- Outcome of the `_route` request phase.  `raisedWaypointNotFound` models
`WaypointNotFoundError` raised by `_get_coordinates_for_location_name` when
the geocoder fails; `providerCalled` records the query data handed to the
provider GET (api key omitted as configuration passthrough). -/
inductive RouteOutcome where
  | raisedHere (msg : String)
  | raisedWaypointNotFound (locationName : String)
  | providerCalled (waypoint0 waypoint1 mode : String) (departure arrival : Option String)
  deriving DecidableEq, Repr

/-- The message of the client-side precondition error (line 70). -/
def bothErrorMsg : String := "Specify either departure or arrival, not both."

/-- Lines 63-77 of `_route`, after both waypoints are resolved: build the
query data, reject if both `departure` and `arrival` are set, otherwise issue
the provider GET.  Timestamps are strings, so
`_convert_datetime_to_isoformat` is the identity on them. -/
def route_finish (pa pb : Int × Int) (modes : List String)
    (departure arrival : Option String) (geocodeCalls : List String) :
    RouteOutcome × RouteTrace :=
  if departure.isSome && arrival.isSome then
    (RouteOutcome.raisedHere bothErrorMsg, ⟨geocodeCalls, 0⟩)
  else
    (RouteOutcome.providerCalled (listToWaypoint pa) (listToWaypoint pb)
        (prepareModeValues modes) departure arrival,
      ⟨geocodeCalls, 1⟩)

/-- Lines 61-62 of `_route`: resolve `waypoint_b` when it is a place name. -/
def route_resolve_b (geocoder : String → Option (Int × Int)) (pa : Int × Int)
    (wb : Waypoint) (modes : List String) (departure arrival : Option String)
    (geocodeCalls : List String) : RouteOutcome × RouteTrace :=
  match wb with
  | Waypoint.coords a b => route_finish pa (a, b) modes departure arrival geocodeCalls
  | Waypoint.name s =>
    match geocoder s with
    | none => (RouteOutcome.raisedWaypointNotFound s, ⟨geocodeCalls ++ [s], 0⟩)
    | some pb => route_finish pa pb modes departure arrival (geocodeCalls ++ [s])

/-- `RoutingApi._route` request phase (lines 58-77): geocode place-name
waypoints in argument order, build the query data, enforce the
departure/arrival precondition, then contact the provider.  The `geocoder`
argument scripts the external geocoder collaborator (`none` = lookup failed
with `HEREError`, translated to `WaypointNotFoundError`). -/
def route_run (geocoder : String → Option (Int × Int)) (wa wb : Waypoint)
    (modes : List String) (departure arrival : Option String) :
    RouteOutcome × RouteTrace :=
  match wa with
  | Waypoint.coords a b => route_resolve_b geocoder (a, b) wb modes departure arrival []
  | Waypoint.name s =>
    match geocoder s with
    | none => (RouteOutcome.raisedWaypointNotFound s, ⟨[s], 0⟩)
    | some pa => route_resolve_b geocoder pa wb modes departure arrival [s]

/-! ## Synchronous matrix request body (`RoutingApi.sync_matrix`, lines 386-483) -/

/-- A serialized matrix waypoint, the `{"lat": .., "lng": ..}` object. -/
structure LatLng where
  lat : Int
  lng : Int
  deriving DecidableEq, Repr

/-- Resolve a waypoint list in order as the `sync_matrix` loops do:
place names go through the geocoder, failures raising
`WaypointNotFoundError` (modelled by `Except.error` carrying the name). -/
def resolveWaypointList (geocoder : String → Option (Int × Int)) :
    List Waypoint → Except String (List LatLng)
  | [] => Except.ok []
  | Waypoint.coords a b :: ws => do
    let rest ← resolveWaypointList geocoder ws
    return ⟨a, b⟩ :: rest
  | Waypoint.name s :: ws =>
    match geocoder s with
    | none => Except.error s
    | some (a, b) => do
      let rest ← resolveWaypointList geocoder ws
      return ⟨a, b⟩ :: rest

/-- The JSON body POSTed by `sync_matrix` (query params `apiKey`,
`async=false` omitted as configuration passthrough). -/
structure SyncMatrixBody where
  regionType : String
  center : LatLng
  radius : Int
  profile : Option String
  departureTime : Option String
  routingMode : Option String
  transportMode : Option String
  matrixAttributes : Option String
  origins : List LatLng
  destinations : List LatLng
  deriving DecidableEq, Repr

/-- Construction of the `sync_matrix` request body (lines 426-472).  Both
waypoint lists are resolved (geocoding side effects and failures included),
but line 472 assigns the origin list to the `destinations` field
(`request_body["destinations"] = origin_list`), discarding the computed
destination list. -/
def sync_matrix_request_body (geocoder : String → Option (Int × Int))
    (origins destinations : List Waypoint) (matrix_type : String)
    (center : Int × Int) (radius : Int)
    (profile departure routing_mode transport_mode : Option String)
    (matrix_attributes : Option (List String)) : Except String SyncMatrixBody := do
  let origin_list ← resolveWaypointList geocoder origins
  let _destination_list ← resolveWaypointList geocoder destinations
  return {
    regionType := matrix_type
    center := ⟨center.1, center.2⟩
    radius := radius
    profile := profile
    departureTime := departure
    routingMode := routing_mode
    transportMode := transport_mode
    matrixAttributes := matrix_attributes.map (joinSep ",")
    origins := origin_list
    destinations := origin_list }

/-! ## Helper lemmas -/

/-- When the separator never occurs in `s`, the worker produces one chunk. -/
theorem pySplitGo_of_not_containsSub (sep : List Char) :
    ∀ (fuel : Nat) (s acc : List Char), containsSub sep s = false →
      pySplitGo sep fuel s acc = [acc.reverse ++ s] := by
  intro fuel
  induction fuel with
  | zero => intro s acc _; rfl
  | succ f ih =>
    intro s acc h
    cases s with
    | nil => simp [pySplitGo]
    | cons c rest =>
      have h2 : sep.isPrefixOf (c :: rest) = false ∧ containsSub sep rest = false := by
        simpa [containsSub] using h
      rw [pySplitGo, if_neg (by simp [h2.1])]
      rw [ih rest (c :: acc) h2.2]
      simp

/-- An instruction without the opening tag yields no span (the `[1]` indexing
would raise `IndexError`, which the code catches and turns into a skip). -/
theorem extractSpan_none_of_no_tag (tag instruction : String)
    (h : containsSub tag.data instruction.data = false) :
    extractSpan tag instruction = none := by
  unfold extractSpan pySplit
  rw [pySplitGo_of_not_containsSub tag.data _ instruction.data [] h]

/-- `addIfNotRepeat` preserves the no-consecutive-duplicates invariant. -/
theorem chain_ne_addIfNotRepeat (road_names : List String) (road_name : String)
    (h : List.Chain' (fun a b => a ≠ b) road_names) :
    List.Chain' (fun a b => a ≠ b) (addIfNotRepeat road_names road_name) := by
  unfold addIfNotRepeat
  split
  · exact h
  · rename_i hne
    rw [List.chain'_append]
    refine ⟨h, List.chain'_singleton _, ?_⟩
    intro x hx y hy
    have hx' : road_names.getLast? = some x := hx
    have hy' : road_name = y := by simpa using hy
    subst hy'
    intro hxy
    exact hne (hxy ▸ hx')

/-- A fold whose step preserves the no-consecutive-duplicates invariant
preserves it from any invariant-satisfying accumulator. -/
theorem chain_ne_foldl (step : List String → String → List String)
    (hstep : ∀ names i, List.Chain' (fun a b => a ≠ b) names →
      List.Chain' (fun a b => a ≠ b) (step names i)) :
    ∀ (m : List String) (acc : List String),
      List.Chain' (fun a b => a ≠ b) acc →
      List.Chain' (fun a b => a ≠ b) (List.foldl step acc m) := by
  intro m
  induction m with
  | nil => intro acc h; simpa using h
  | cons i m ih =>
    intro acc h
    rw [List.foldl_cons]
    exact ih (step acc i) (hstep acc i h)

/-- The vehicle-maneuver loop body preserves the dedup invariant. -/
theorem chain_ne_vehicleStep (names : List String) (i : String)
    (h : List.Chain' (fun a b => a ≠ b) names) :
    List.Chain' (fun a b => a ≠ b) (vehicleStep names i) := by
  unfold vehicleStep
  split
  · exact h
  · split
    · exact chain_ne_addIfNotRepeat _ _ h
    · exact chain_ne_addIfNotRepeat _ _ h

/-- The non-vehicle-maneuver loop body preserves the dedup invariant. -/
theorem chain_ne_nonVehicleStep (names : List String) (i : String)
    (h : List.Chain' (fun a b => a ≠ b) names) :
    List.Chain' (fun a b => a ≠ b) (nonVehicleStep names i) := by
  unfold nonVehicleStep
  split
  · exact h
  · exact chain_ne_addIfNotRepeat _ _ h

/-! ## Claim theorems -/

/-- C1 (amended): in the `async_matrix` poll loop, a poll response bearing the
redirect-pending status code (303, with a non-empty body) terminates polling
immediately as the completion signal, while a success-status (200) response
with the expected fields keeps polling; for a poll-response sequence
[still-running, still-running, redirect-pending with completed body], exactly
two intermediate polls precede the terminal poll (three polls in total), the
job is submitted exactly once, and exactly one result-download attempt is
made, only after the completed status is observed — that attempt invokes
`__download_file` without its required arguments, so a generic error is
raised instead of a successful fetch. -/
theorem C1_redirect_pending_completion :
    (∀ (body : JObj) (rest : List PollResponse) (n : Nat), body ≠ [] →
        pollLoop ({ statusCode := 303, body := body } :: rest) n =
          PollOutcome.finished { statusCode := 303, body := body } (n + 1)) ∧
    (∀ (body : JObj) (rest : List PollResponse) (n : Nat),
        (jget body "matrixId").isSome = true → (jget body "status").isSome = true →
        pollLoop ({ statusCode := 200, body := body } :: rest) n = pollLoop rest (n + 1)) ∧
    async_matrix_run 202
        [("matrixId", JVal.str "m1"), ("status", JVal.str "accepted"),
          ("statusUrl", JVal.str "su")]
        [⟨200, [("matrixId", JVal.str "m1"), ("status", JVal.str "inProgress")]⟩,
         ⟨200, [("matrixId", JVal.str "m1"), ("status", JVal.str "inProgress")]⟩,
         ⟨303, [("matrixId", JVal.str "m1"), ("status", JVal.str "completed"),
            ("resultUrl", JVal.str "ru")]⟩] =
      (AsyncOutcome.genericHereError, ⟨1, 3, 1⟩) := by
  refine ⟨?_, ?_, by decide⟩
  · intro body rest n hbody
    simp [pollLoop, is_correct_response, hbody]
  · intro body rest n h1 h2
    rcases Option.isSome_iff_exists.mp h1 with ⟨v1, hv1⟩
    rcases Option.isSome_iff_exists.mp h2 with ⟨v2, hv2⟩
    simp [pollLoop, is_correct_response, hv1, hv2]

/-- C1 witness: the amended theorem applied to concrete poll responses. -/
theorem C1_redirect_pending_completion_witness :
    pollLoop [⟨303, [("status", JVal.str "completed")]⟩] 0 =
      PollOutcome.finished ⟨303, [("status", JVal.str "completed")]⟩ 1 ∧
    pollLoop [⟨200, [("matrixId", JVal.str "m"), ("status", JVal.str "inProgress")]⟩] 0 =
      pollLoop [] 1 :=
  ⟨C1_redirect_pending_completion.1 [("status", JVal.str "completed")] [] 0 (by decide),
   C1_redirect_pending_completion.2.1 [("matrixId", JVal.str "m"),
      ("status", JVal.str "inProgress")] [] 0 (by decide) (by decide)⟩

/-- C1 counterexample: the claim reads a redirect-pending (303) poll response
as "not yet done, keep polling", so the sequence
[redirect-pending, redirect-pending, completed] should yield two intermediate
polls before the completed status triggers one result fetch.  The code stops
polling at the FIRST redirect-pending response: only one poll is issued, the
later completed response is never observed, and no result fetch follows. -/
theorem C1_poll_continuation_refuted :
    pollLoop
        [⟨303, [("matrixId", JVal.str "m1"), ("status", JVal.str "inProgress")]⟩,
         ⟨303, [("matrixId", JVal.str "m1"), ("status", JVal.str "inProgress")]⟩,
         ⟨200, [("matrixId", JVal.str "m1"), ("status", JVal.str "completed")]⟩] 0 =
      PollOutcome.finished
        ⟨303, [("matrixId", JVal.str "m1"), ("status", JVal.str "inProgress")]⟩ 1 := by
  decide

/-- C2 (amended): classifier precedence.  An `error` field equal to
"Unauthorized" is checked first and yields InvalidCredentials carrying
`error_description` when that field is present (its absence raises
`KeyError`).  Otherwise a present `subtype` reads `details` unconditionally
(absence of `details` raises `KeyError`) and selects among the five kinds by
exact match, each carrying `details`; an unmatched `subtype` with `details`
present, or no `subtype` at all, yields the Generic kind with no
payload-derived detail. -/
theorem C2_error_classifier_precedence :
    ∀ j : JObj,
      (∀ d, errorIsUnauthorized j = true → jget j "error_description" = some d →
          error_from_routing_service_error j =
            Except.ok (RoutingError.invalidCredentials d)) ∧
      (errorIsUnauthorized j = true → jget j "error_description" = none →
          error_from_routing_service_error j = Except.error PyErr.keyError) ∧
      (errorIsUnauthorized j = false → jget j "subtype" = none →
          error_from_routing_service_error j = Except.ok RoutingError.generic) ∧
      (∀ st, errorIsUnauthorized j = false → jget j "subtype" = some st →
          jget j "details" = none →
          error_from_routing_service_error j = Except.error PyErr.keyError) ∧
      (∀ d, errorIsUnauthorized j = false →
          jget j "subtype" = some (JVal.str "InvalidInputData") →
          jget j "details" = some d →
          error_from_routing_service_error j =
            Except.ok (RoutingError.invalidInputData d)) ∧
      (∀ d, errorIsUnauthorized j = false →
          jget j "subtype" = some (JVal.str "WaypointNotFound") →
          jget j "details" = some d →
          error_from_routing_service_error j =
            Except.ok (RoutingError.waypointNotFound d)) ∧
      (∀ d, errorIsUnauthorized j = false →
          jget j "subtype" = some (JVal.str "NoRouteFound") →
          jget j "details" = some d →
          error_from_routing_service_error j =
            Except.ok (RoutingError.noRouteFound d)) ∧
      (∀ d, errorIsUnauthorized j = false →
          jget j "subtype" = some (JVal.str "LinkIdNotFound") →
          jget j "details" = some d →
          error_from_routing_service_error j =
            Except.ok (RoutingError.linkIdNotFound d)) ∧
      (∀ d, errorIsUnauthorized j = false →
          jget j "subtype" = some (JVal.str "RouteNotReconstructed") →
          jget j "details" = some d →
          error_from_routing_service_error j =
            Except.ok (RoutingError.routeNotReconstructed d)) ∧
      (∀ st d, errorIsUnauthorized j = false → jget j "subtype" = some st →
          jget j "details" = some d →
          st ≠ JVal.str "InvalidInputData" → st ≠ JVal.str "WaypointNotFound" →
          st ≠ JVal.str "NoRouteFound" → st ≠ JVal.str "LinkIdNotFound" →
          st ≠ JVal.str "RouteNotReconstructed" →
          error_from_routing_service_error j = Except.ok RoutingError.generic) := by
  intro j
  refine ⟨?_, ?_, ?_, ?_, ?_, ?_, ?_, ?_, ?_, ?_⟩
  · intro d h1 h2
    simp [error_from_routing_service_error, h1, h2]
  · intro h1 h2
    simp [error_from_routing_service_error, h1, h2]
  · intro h1 h2
    simp [error_from_routing_service_error, subtypeDispatch, h1, h2]
  · intro st h1 h2 h3
    simp [error_from_routing_service_error, subtypeDispatch, h1, h2, h3]
  · intro d h1 h2 h3
    simp [error_from_routing_service_error, subtypeDispatch, h1, h2, h3]
  · intro d h1 h2 h3
    simp [error_from_routing_service_error, subtypeDispatch, h1, h2, h3]
  · intro d h1 h2 h3
    simp [error_from_routing_service_error, subtypeDispatch, h1, h2, h3]
  · intro d h1 h2 h3
    simp [error_from_routing_service_error, subtypeDispatch, h1, h2, h3]
  · intro d h1 h2 h3
    simp [error_from_routing_service_error, subtypeDispatch, h1, h2, h3]
  · intro st d h1 h2 h3 h4 h5 h6 h7 h8
    simp [error_from_routing_service_error, subtypeDispatch, h1, h2, h3, h4, h5, h6, h7, h8]

/-- C2 witness: the amended theorem applied to the two payloads the spec
gives as examples. -/
theorem C2_error_classifier_precedence_witness :
    error_from_routing_service_error
        [("error", JVal.str "Unauthorized"), ("error_description", JVal.str "bad key")] =
      Except.ok (RoutingError.invalidCredentials (JVal.str "bad key")) ∧
    error_from_routing_service_error
        [("subtype", JVal.str "NoRouteFound"), ("details", JVal.str "no route")] =
      Except.ok (RoutingError.noRouteFound (JVal.str "no route")) :=
  ⟨(C2_error_classifier_precedence _).1 (JVal.str "bad key") (by decide) (by decide),
   (C2_error_classifier_precedence _).2.2.2.2.2.2.1 (JVal.str "no route")
      (by decide) (by decide) (by decide)⟩

/-- C2 counterexample: the claim says any payload with an unmatched `subtype`
(here, no `details` field either) yields the Generic kind; the code instead
raises `KeyError` on the unconditional `json_data["details"]` read. -/
theorem C2_unmatched_subtype_keyerror :
    error_from_routing_service_error [("subtype", JVal.str "SomethingElse")] =
      Except.error PyErr.keyError := by
  rfl

/-- C3: for every maneuver list, the vehicle and non-vehicle summaries have
no two equal consecutive entries (the summary string is the `"; "`-join of
the entries list), the suppression comparing only against the immediately
preceding entry; a concrete run shows an entry equal to an earlier
non-adjacent one is still included, and the spec example A1, A1, B2 yields
"A1; B2". -/
theorem C3_no_consecutive_duplicate_entries :
    (∀ maneuver : List String,
        List.Chain' (fun a b => a ≠ b) (vehicleRoadNames maneuver) ∧
        List.Chain' (fun a b => a ≠ b) (nonVehicleRoadNames maneuver) ∧
        get_route_from_vehicle_maneuver maneuver =
          joinSep "; " (vehicleRoadNames maneuver) ∧
        get_route_from_non_vehicle_maneuver maneuver =
          joinSep "; " (nonVehicleRoadNames maneuver)) ∧
    vehicleRoadNames ["To <span class=\"number\">A1</span>",
        "Stay <span class=\"number\">A1</span>", "To <span class=\"number\">B2</span>"] =
      ["A1", "B2"] ∧
    get_route_from_vehicle_maneuver ["To <span class=\"number\">A1</span>",
        "Stay <span class=\"number\">A1</span>", "To <span class=\"number\">B2</span>"] =
      "A1; B2" ∧
    nonVehicleRoadNames ["Go <span class=\"next-street\">A</span>",
        "Go <span class=\"next-street\">B</span>", "Go <span class=\"next-street\">A</span>"] =
      ["A", "B", "A"] := by
  refine ⟨fun m => ⟨?_, ?_, rfl, rfl⟩, by decide, by decide, by decide⟩
  · exact chain_ne_foldl vehicleStep chain_ne_vehicleStep m [] List.chain'_nil
  · exact chain_ne_foldl nonVehicleStep chain_ne_nonVehicleStep m [] List.chain'_nil

/-- C4: per maneuver step, the vehicle summarizer emits
`"<number> - <street>"` when both spans are extractable, `"<number>"` when
only the number span is, and nothing when neither is; the per-step entries
feed the consecutive-duplicate suppression and the surviving entries are
joined with `"; "`. -/
theorem C4_vehicle_entry_shape :
    (∀ instruction : String,
        (∀ n s, extractSpan numberTag instruction = some n →
            extractSpan nextStreetTag instruction = some s →
            vehicleStepEntry instruction = some (n ++ " - " ++ s)) ∧
        (∀ n, extractSpan numberTag instruction = some n →
            extractSpan nextStreetTag instruction = none →
            vehicleStepEntry instruction = some n) ∧
        (extractSpan numberTag instruction = none →
            extractSpan nextStreetTag instruction = none →
            vehicleStepEntry instruction = none)) ∧
    (∀ (names : List String) (instruction : String),
        vehicleStep names instruction =
          match vehicleStepEntry instruction with
          | some e => addIfNotRepeat names e
          | none => names) ∧
    (∀ maneuver : List String,
        get_route_from_vehicle_maneuver maneuver =
          joinSep "; " (vehicleRoadNames maneuver)) := by
  refine ⟨fun instruction => ⟨?_, ?_, ?_⟩, ?_, fun _ => rfl⟩
  · intro n s h1 h2
    simp [vehicleStepEntry, h1, h2]
  · intro n h1 h2
    simp [vehicleStepEntry, h1, h2]
  · intro h1 _
    simp [vehicleStepEntry, h1]
  · intro names instruction
    unfold vehicleStep vehicleStepEntry
    cases extractSpan numberTag instruction <;>
      cases extractSpan nextStreetTag instruction <;> rfl

/-- C4 witness: the three shapes at concrete instructions. -/
theorem C4_vehicle_entry_shape_witness :
    vehicleStepEntry
        "Turn onto <span class=\"number\">A1</span> toward <span class=\"next-street\">Main</span>" =
      some ("A1" ++ " - " ++ "Main") ∧
    vehicleStepEntry "Take <span class=\"number\">B2</span> ahead" = some "B2" ∧
    vehicleStepEntry "Continue straight" = none :=
  ⟨(C4_vehicle_entry_shape.1 _).1 "A1" "Main" (by decide) (by decide),
   (C4_vehicle_entry_shape.1 _).2.1 "B2" (by decide) (by decide),
   (C4_vehicle_entry_shape.1 _).2.2 (by decide) (by decide)⟩

/-- C5 (amended): a route request with both departure and arrival set is
rejected with the descriptive client-side error before the routing provider
endpoint is contacted (the provider is never contacted for such a request),
and with coordinate waypoints no network call at all precedes the rejection;
but place-name waypoints are geocoded — a network call — before the check,
and a geocoder failure surfaces as WaypointNotFound instead. -/
theorem C5_both_timestamps_rejected :
    ∀ (geocoder : String → Option (Int × Int)) (wa wb : Waypoint)
      (modes : List String) (departure arrival : Option String),
      departure.isSome = true → arrival.isSome = true →
      (route_run geocoder wa wb modes departure arrival).2.providerCalls = 0 ∧
      ((route_run geocoder wa wb modes departure arrival).1 =
          RouteOutcome.raisedHere bothErrorMsg ∨
        ∃ s, (route_run geocoder wa wb modes departure arrival).1 =
          RouteOutcome.raisedWaypointNotFound s) ∧
      (∀ a b a2 b2, wa = Waypoint.coords a b → wb = Waypoint.coords a2 b2 →
          route_run geocoder wa wb modes departure arrival =
            (RouteOutcome.raisedHere bothErrorMsg, ⟨[], 0⟩)) := by
  intro geocoder wa wb modes departure arrival hdep harr
  have hfin : ∀ pa pb gcalls, route_finish pa pb modes departure arrival gcalls =
      (RouteOutcome.raisedHere bothErrorMsg, ⟨gcalls, 0⟩) := by
    intro pa pb gcalls
    simp [route_finish, hdep, harr]
  have hres : ∀ pa gcalls,
      (route_resolve_b geocoder pa wb modes departure arrival gcalls).2.providerCalls = 0 ∧
      ((route_resolve_b geocoder pa wb modes departure arrival gcalls).1 =
          RouteOutcome.raisedHere bothErrorMsg ∨
        ∃ s, (route_resolve_b geocoder pa wb modes departure arrival gcalls).1 =
          RouteOutcome.raisedWaypointNotFound s) := by
    intro pa gcalls
    cases wb with
    | coords a b => exact ⟨by simp [route_resolve_b, hfin], Or.inl (by simp [route_resolve_b, hfin])⟩
    | name s =>
      cases hg : geocoder s with
      | none => exact ⟨by simp [route_resolve_b, hg], Or.inr ⟨s, by simp [route_resolve_b, hg]⟩⟩
      | some pb => exact ⟨by simp [route_resolve_b, hg, hfin], Or.inl (by simp [route_resolve_b, hg, hfin])⟩
  have hcc : ∀ a b a2 b2, wa = Waypoint.coords a b → wb = Waypoint.coords a2 b2 →
      route_run geocoder wa wb modes departure arrival =
        (RouteOutcome.raisedHere bothErrorMsg, ⟨[], 0⟩) := by
    intro a b a2 b2 ha hb
    subst ha; subst hb
    simp [route_run, route_resolve_b, hfin]
  cases wa with
  | coords a b =>
    have h := hres (a, b) []
    exact ⟨by simpa [route_run] using h.1, by simpa [route_run] using h.2, hcc⟩
  | name s =>
    cases hg : geocoder s with
    | none =>
      refine ⟨by simp [route_run, hg], Or.inr ⟨s, by simp [route_run, hg]⟩, ?_⟩
      intro a b a2 b2 ha hb
      exact absurd ha (by simp)
    | some pa =>
      have h := hres pa [s]
      refine ⟨by simpa [route_run, hg] using h.1, by simpa [route_run, hg] using h.2, ?_⟩
      intro a b a2 b2 ha hb
      exact absurd ha (by simp)

/-- C5 witness: both timestamps set with coordinate waypoints — rejected with
the precondition error, no geocoder call and no provider call. -/
theorem C5_both_timestamps_rejected_witness :
    route_run (fun _ => none) (Waypoint.coords 1 2) (Waypoint.coords 3 4) ["car"]
        (some "2023-05-01T10:00:00") (some "2023-05-01T12:00:00") =
      (RouteOutcome.raisedHere bothErrorMsg, ⟨[], 0⟩) :=
  (C5_both_timestamps_rejected (fun _ => none) (Waypoint.coords 1 2) (Waypoint.coords 3 4)
      ["car"] (some "2023-05-01T10:00:00") (some "2023-05-01T12:00:00")
      (by decide) (by decide)).2.2 1 2 3 4 rfl rfl

/-- C5 counterexample: with a place-name waypoint and both timestamps set,
the geocoder is called ("Berlin" appears in the geocode trace) BEFORE the
rejection is raised, refuting "rejected ... before any network call occurs"
(only the routing provider endpoint is guaranteed untouched). -/
theorem C5_geocode_precedes_rejection :
    route_run (fun _ => some (52, 13)) (Waypoint.name "Berlin") (Waypoint.coords 41 29)
        ["publicTransportTimeTable"] (some "2023-05-01T10:00:00")
        (some "2023-05-01T12:00:00") =
      (RouteOutcome.raisedHere bothErrorMsg, ⟨["Berlin"], 0⟩) := by
  decide

/-- C6: the `sync_matrix` request body at origins `[(1,2)]` and destinations
`[(3,4)]`: the `origins` array is serialized from the origins, but the
`destinations` array is also serialized from the ORIGINS
(`request_body["destinations"] = origin_list`, line 472), not from the
supplied destinations `[(3,4)]`. -/
theorem C6_sync_matrix_destinations_bug :
    sync_matrix_request_body (fun _ => none) [Waypoint.coords 1 2] [Waypoint.coords 3 4]
        "circle" (0, 0) 10 none none none none none =
      Except.ok { regionType := "circle", center := ⟨0, 0⟩, radius := 10,
                  profile := none, departureTime := none, routingMode := none,
                  transportMode := none, matrixAttributes := none,
                  origins := [⟨1, 2⟩], destinations := [⟨1, 2⟩] } ∧
    ([⟨1, 2⟩] : List LatLng) ≠ [⟨3, 4⟩] :=
  ⟨rfl, by decide⟩

/-- C7: a matrix-job poll response with an authentication-failure status code
(401 or 403) makes `__is_correct_response` raise an error carrying the
provider's error code and description, terminating the poll loop after that
single poll — even on the first poll, independently of any later scripted
responses. -/
theorem C7_auth_failure_terminates_polling :
    ∀ (code : Nat) (body : JObj) (rest : List PollResponse) (e d : String),
      code = 401 ∨ code = 403 →
      jget body "error" = some (JVal.str e) →
      jget body "error_description" = some (JVal.str d) →
      pollLoop ({ statusCode := code, body := body } :: rest) 0 =
        PollOutcome.raisedHere
          ("Error occured on __is_correct_response: " ++ e ++ ", description: " ++ d) 1 := by
  intro code body rest e d hcode h1 h2
  rcases hcode with rfl | rfl <;>
    simp [pollLoop, is_correct_response, h1, h2]

/-- C7 witness: a 401 on the first poll with a pending later response —
polling ends after one poll with the provider's error and description. -/
theorem C7_auth_failure_terminates_polling_witness :
    pollLoop [⟨401, [("error", JVal.str "Unauthorized"),
        ("error_description", JVal.str "bad key")]⟩, ⟨200, []⟩] 0 =
      PollOutcome.raisedHere
        ("Error occured on __is_correct_response: " ++ "Unauthorized" ++
          ", description: " ++ "bad key") 1 :=
  C7_auth_failure_terminates_polling 401
    [("error", JVal.str "Unauthorized"), ("error_description", JVal.str "bad key")]
    [⟨200, []⟩] "Unauthorized" "bad key" (Or.inl rfl) (by decide) (by decide)

/-- C8 counterexample: the claim says a step with malformed or absent span
delimiters emits no entry, but an UNCLOSED span — opening delimiter present,
closing `</span>` delimiter absent — does emit one: `split(tag)[1]` succeeds
and `split("</span>")[0]` returns the whole remainder, so the instruction
`<span class="number">A1` produces the entry "A1". -/
theorem C8_unclosed_span_emits_entry :
    containsSub spanCloseTag.data "<span class=\"number\">A1".data = false ∧
    vehicleStepEntry "<span class=\"number\">A1" = some "A1" :=
  ⟨by decide, by decide⟩

/-- C8 (amended): a maneuver step whose instruction lacks the expected
OPENING span delimiter contributes no entry (the `IndexError` from the failed
split indexing is caught, so the embedded summarizers are total functions and
no exception escapes); a step whose instruction contains the opening
delimiter but lacks the closing `</span>` delimiter raises no exception
either, but the span runs to the end of the string and an entry IS emitted;
every summarizer variant maps the empty input list to the empty string. -/
theorem C8_absent_open_tag_skipped :
    (∀ instruction : String, containsSub numberTag.data instruction.data = false →
        vehicleStepEntry instruction = none) ∧
    (∀ instruction : String, containsSub nextStreetTag.data instruction.data = false →
        extractSpan nextStreetTag instruction = none) ∧
    (∀ (names : List String) (instruction : String), vehicleStepEntry instruction = none →
        vehicleStep names instruction = names) ∧
    (∀ (names : List String) (instruction : String),
        extractSpan nextStreetTag instruction = none →
        nonVehicleStep names instruction = names) ∧
    extractSpan nextStreetTag "Go <span class=\"next-street\">Foo" = some "Foo" ∧
    nonVehicleStep [] "Go <span class=\"next-street\">Foo" = ["Foo"] ∧
    get_route_from_vehicle_maneuver [] = "" ∧
    get_route_from_non_vehicle_maneuver [] = "" ∧
    get_route_from_public_transport_line [] = "" := by
  refine ⟨?_, ?_, ?_, ?_, by decide, by decide, rfl, rfl, rfl⟩
  · intro instruction h
    simp [vehicleStepEntry, extractSpan_none_of_no_tag _ _ h]
  · intro instruction h
    exact extractSpan_none_of_no_tag _ _ h
  · intro names instruction h
    unfold vehicleStep
    unfold vehicleStepEntry at h
    cases h1 : extractSpan numberTag instruction with
    | none => simp
    | some rn =>
      rw [h1] at h
      cases h2 : extractSpan nextStreetTag instruction with
      | none => rw [h2] at h; simp at h
      | some st => rw [h2] at h; simp at h
  · intro names instruction h
    simp [nonVehicleStep, h]

/-- C8 witness: an instruction without the opening delimiter yields no entry
and leaves the accumulated entries unchanged. -/
theorem C8_absent_open_tag_skipped_witness :
    vehicleStepEntry "Turn left at the light" = none ∧
    extractSpan nextStreetTag "Turn left at the light" = none ∧
    vehicleStep ["A1"] "Continue" = ["A1"] ∧
    nonVehicleStep ["A"] "Continue" = ["A"] :=
  ⟨C8_absent_open_tag_skipped.1 "Turn left at the light" (by decide),
   C8_absent_open_tag_skipped.2.1 "Turn left at the light" (by decide),
   C8_absent_open_tag_skipped.2.2.1 ["A1"] "Continue" (by decide),
   C8_absent_open_tag_skipped.2.2.2.1 ["A"] "Continue" (by decide)⟩

/-- C9: the public-transport summarizer emits `"<lineName> - <destination>"`
for every segment unconditionally (it is a plain map: no duplicate
suppression — adjacent duplicates both survive — and no skipping), joined
with `"; "`; in particular the spec's two-segment example yields exactly
"U1 - X; U2 - Y". -/
theorem C9_public_transport_unconditional :
    (∀ segments : List PublicTransportLine,
        get_route_from_public_transport_line segments =
          joinSep "; " (segments.map (fun li => li.lineName ++ " - " ++ li.destination))) ∧
    get_route_from_public_transport_line [⟨"U1", "X"⟩, ⟨"U2", "Y"⟩] = "U1 - X; U2 - Y" ∧
    get_route_from_public_transport_line [⟨"U1", "X"⟩, ⟨"U1", "X"⟩] = "U1 - X; U1 - X" :=
  ⟨fun _ => rfl, by decide, by decide⟩

/-- C10: a maneuver step whose instruction has an extractable next-street
span but no number span is skipped entirely by the vehicle summarizer (the
street name alone is never emitted), because the street extraction is nested
under the successful number extraction. -/
theorem C10_street_only_step_skipped :
    ∀ (instruction s : String),
      extractSpan numberTag instruction = none →
      extractSpan nextStreetTag instruction = some s →
      vehicleStepEntry instruction = none ∧
      ∀ names : List String, vehicleStep names instruction = names := by
  intro instruction s h1 _
  exact ⟨by simp [vehicleStepEntry, h1], fun names => by simp [vehicleStep, h1]⟩

/-- C10 witness: an instruction carrying only a next-street span produces no
entry and leaves the entries list unchanged. -/
theorem C10_street_only_step_skipped_witness :
    vehicleStepEntry "Head to <span class=\"next-street\">Main St</span>" = none ∧
    vehicleStep ["X"] "Head to <span class=\"next-street\">Main St</span>" = ["X"] := by
  have h := C10_street_only_step_skipped "Head to <span class=\"next-street\">Main St</span>"
      "Main St" (by decide) (by decide)
  exact ⟨h.1, h.2 ["X"]⟩

end HerePy
